import Mathlib

/-!
Verification development for the real-time SMS spam classification service
(source files `spam_classifier.py` and `app.py`).

The pure text-normalization pipeline, the classification pipeline, the
`SpamClassifier` object, and the Flask endpoint handlers together with the
background training thread are embedded as executable Lean definitions, and
the behavioural properties of the service are proved about those definitions.
-/

namespace SpamSMS

/-- The ASCII uppercase letters, in order. -/
def asciiUpperChars : List Char :=
  ['A','B','C','D','E','F','G','H','I','J','K','L','M',
   'N','O','P','Q','R','S','T','U','V','W','X','Y','Z']

/-- The ASCII lowercase letters, in order. -/
def asciiLowerChars : List Char :=
  ['a','b','c','d','e','f','g','h','i','j','k','l','m',
   'n','o','p','q','r','s','t','u','v','w','x','y','z']

/-- Python `str.lower()` on one character (ASCII range), written as a table lookup
pairing each uppercase letter with its lowercase form.  Characters outside
the table are returned unchanged. -/
def pyLower (c : Char) : Char :=
  match (asciiUpperChars.zip asciiLowerChars).find? (fun p => p.1 == c) with
  | some p => p.2
  | none => c

/-- The whitespace class of the regex `\s` and of `str.split()` (ASCII part):
space, tab, newline, carriage return, vertical tab, form feed. -/
def isPySpace (c : Char) : Bool :=
  [' ', '\t', '\n', '\r', '\x0b', '\x0c'].contains c

/-- An ASCII letter, i.e. a character matched by `[a-zA-Z]`. -/
def isAsciiAlpha (c : Char) : Bool :=
  asciiLowerChars.contains c || asciiUpperChars.contains c

/-- A character kept by the regex deletion step, whose pattern
`[^a-zA-Z\s]` removes everything that is not a letter or whitespace. -/
def keepChar (c : Char) : Bool :=
  isAsciiAlpha c || isPySpace c

/-- Python `str.split()` with no separator argument: the maximal runs of
non-whitespace characters, in order; leading/trailing/repeated whitespace
produces no empty pieces. -/
def splitWords (l : List Char) : List (List Char) :=
  match l with
  | [] => []
  | c :: cs =>
    if isPySpace c then splitWords cs
    else (c :: cs.takeWhile (fun d => !isPySpace d))
         :: splitWords (cs.dropWhile (fun d => !isPySpace d))
termination_by l.length
decreasing_by
  · simp_wf
  · simp_wf
    exact Nat.lt_succ_of_le (List.Sublist.length_le (List.dropWhile_sublist _))

/-- The space-join of Python: concatenate the pieces with a single space
between consecutive pieces. -/
def joinSpace (ws : List (List Char)) : List Char :=
  List.intercalate [' '] ws

/-- The NLTK English stopword list used by the source (stopwords.words
for English).
This is external corpus data, not code of the repository; it is reproduced
here verbatim (apostrophes written as the escape `\x27`).  Entries containing
an apostrophe can never match the letter-only tokens produced by the
preceding regex step. -/
def stop_words : List String :=
  ["i", "me", "my", "myself", "we", "our", "ours", "ourselves",
   "you", "you\x27re", "you\x27ve", "you\x27ll", "you\x27d",
   "your", "yours", "yourself", "yourselves",
   "he", "him", "his", "himself", "she", "she\x27s", "her", "hers", "herself",
   "it", "it\x27s", "its", "itself",
   "they", "them", "their", "theirs", "themselves",
   "what", "which", "who", "whom", "this", "that", "that\x27ll",
   "these", "those", "am", "is", "are", "was", "were", "be", "been", "being",
   "have", "has", "had", "having", "do", "does", "did", "doing",
   "a", "an", "the", "and", "but", "if", "or", "because", "as",
   "until", "while", "of", "at", "by", "for", "with", "about", "against",
   "between", "into", "through", "during", "before", "after",
   "above", "below", "to", "from", "up", "down", "in", "out", "on", "off",
   "over", "under", "again", "further", "then", "once", "here", "there",
   "when", "where", "why", "how", "all", "any", "both", "each", "few",
   "more", "most", "other", "some", "such", "no", "nor", "not", "only",
   "own", "same", "so", "than", "too", "very",
   "s", "t", "can", "will", "just", "don", "don\x27t",
   "should", "should\x27ve", "now", "d", "ll", "m", "o", "re", "ve", "y",
   "ain", "aren", "aren\x27t", "couldn", "couldn\x27t",
   "didn", "didn\x27t", "doesn", "doesn\x27t", "hadn", "hadn\x27t",
   "hasn", "hasn\x27t", "haven", "haven\x27t", "isn", "isn\x27t",
   "ma", "mightn", "mightn\x27t", "mustn", "mustn\x27t",
   "needn", "needn\x27t", "shan", "shan\x27t", "shouldn", "shouldn\x27t",
   "wasn", "wasn\x27t", "weren", "weren\x27t",
   "won", "won\x27t", "wouldn", "wouldn\x27t"]

/-- Embedding of `preprocess_text` (`spam_classifier.py`, lines 61-83):
lowercase; delete every character that is neither an ASCII letter nor
whitespace; collapse whitespace runs by splitting and space-joining; tokenize;
drop stopword tokens; rejoin with single spaces.  `word_tokenize` is
modelled as whitespace splitting, which is what the NLTK tokenizer does on
the letters-and-single-spaces text produced by the preceding steps. -/
def preprocess_text (s : String) : String :=
  let t1 := s.data.map pyLower
  let t2 := t1.filter keepChar
  let t3 := joinSpace (splitWords t2)
  let word_tokens := splitWords t3
  let filtered_text := word_tokens.filter (fun w => !stop_words.contains (String.mk w))
  String.mk (joinSpace filtered_text)

/-- The token list underlying `preprocess_text`: the words of the lowercased,
letters-and-whitespace-filtered text, with stopword tokens removed.
`preprocess_text s` is exactly these words joined by single spaces (proved
below); the definition is introduced to state that fact. -/
def normWords (s : String) : List (List Char) :=
  (splitWords ((s.data.map pyLower).filter keepChar)).filter
    (fun w => !stop_words.contains (String.mk w))

/-- The result dictionary returned by `classify_sms_real_time`
(`spam_classifier.py`, lines 110-116). -/
structure PredictionResult where
  message : String
  naive_bayes_result : String
  logistic_regression_result : String
  naive_bayes_confidence : Rat
  logistic_regression_confidence : Rat
deriving DecidableEq, Repr

/-- A fitted binary classifier, as used by `classify_sms_real_time`: a
predicted label (`predict(...)[0]`, with 1 = spam, 0 = ham) and the pair of
class probabilities (`predict_proba(...)[0]`, one probability per class) as
functions of the feature vector. -/
structure BinClassifier where
  predictLabel : List Rat → Nat
  predictProba : List Rat → Rat × Rat

/-- Embedding of `classify_sms_real_time` (`spam_classifier.py`, lines
85-116).  The fitted vectorizer is the function `transform` applied to the
preprocessed message; `max(p)` over the two class probabilities becomes
`max p.1 p.2`. -/
def classify_sms_real_time (message : String) (vectorizer : String → List Rat)
    (nb_classifier lr_classifier : BinClassifier) : PredictionResult :=
  let processed_msg := preprocess_text message
  let msg_vector := vectorizer processed_msg
  let nb_pred := nb_classifier.predictLabel msg_vector
  let nb_prob := nb_classifier.predictProba msg_vector
  let lr_pred := lr_classifier.predictLabel msg_vector
  let lr_prob := lr_classifier.predictProba msg_vector
  let nb_result := if nb_pred = 1 then "Spam" else "Not Spam"
  let lr_result := if lr_pred = 1 then "Spam" else "Not Spam"
  { message := message
    naive_bayes_result := nb_result
    logistic_regression_result := lr_result
    naive_bayes_confidence := max nb_prob.1 nb_prob.2
    logistic_regression_confidence := max lr_prob.1 lr_prob.2 }

/-- The mutable fields of a `SpamClassifier` object (`spam_classifier.py`,
lines 123-127), generic in the payload types of the fitted vectorizer and
classifiers.  `__init__` sets the three model fields to `None` and
`is_trained` to `False`. -/
structure SpamClassifierSt (V C : Type) where
  vectorizer : Option V
  nb_classifier : Option C
  lr_classifier : Option C
  is_trained : Bool
deriving DecidableEq, Repr

/-- The state produced by `SpamClassifier.__init__`. -/
def SpamClassifierSt.init {V C : Type} : SpamClassifierSt V C :=
  { vectorizer := none, nb_classifier := none, lr_classifier := none,
    is_trained := false }

/-- The classifier state instantiated with the concrete payloads used by
prediction: a vectorizer is a transform function from preprocessed text to a
feature vector. -/
abbrev SpamClassifierM := SpamClassifierSt (String → List Rat) BinClassifier

/-- Embedding of `SpamClassifier.predict` (`spam_classifier.py`, lines
184-191): raises (`Except.error`) when `is_trained` is false, otherwise
delegates to `classify_sms_real_time` with the stored model fields.  The
method writes no field, which the embedding reflects by returning only the
result.  If a model field were `None` despite `is_trained`, the Python code
would fail on the `None` attribute access; that is the second error case. -/
def SpamClassifierSt.predict (c : SpamClassifierM) (message : String) :
    Except String PredictionResult :=
  if c.is_trained = false then .error "Model must be trained first"
  else
    match c.vectorizer, c.nb_classifier, c.lr_classifier with
    | some v, some nb, some lr => .ok (classify_sms_real_time message v nb lr)
    | _, _, _ => .error "NoneType attribute access"

/-- The in-place writes `SpamClassifier.train` performs on `self`, in source
order (`spam_classifier.py`): line 142 assigns `self.vectorizer`, line 154
assigns `self.nb_classifier`, line 163 assigns `self.lr_classifier`, line
179 sets `self.is_trained = True`.  Everything else in the method (loading,
preprocessing, `fit_transform`, the split, the two `fit` calls and the
evaluation) runs between these writes without touching other fields. -/
def trainMutations {V C : Type} (newVec : V) (newNB newLR : C) :
    List (SpamClassifierSt V C → SpamClassifierSt V C) :=
  [fun c => { c with vectorizer := some newVec },
   fun c => { c with nb_classifier := some newNB },
   fun c => { c with lr_classifier := some newLR },
   fun c => { c with is_trained := true }]

/-- The sequence of classifier states observable while one call of
`SpamClassifier.train` runs: the initial state (still current during data
loading and preprocessing) followed by the state after each in-place field
assignment. -/
def trainStates {V C : Type} (c : SpamClassifierSt V C) (newVec : V)
    (newNB newLR : C) : List (SpamClassifierSt V C) :=
  List.scanl (fun s f => f s) c (trainMutations newVec newNB newLR)

/-- Where a run of `SpamClassifier.train` can stop: an exception raised by
the fallible code after `k` of the four field assignments have executed
(`failAfter0`: during loading/preprocessing; `failAfter1`: during
`fit_transform`/split; `failAfter2`: during Naive Bayes fitting or
evaluation; `failAfter3`: during Logistic Regression fitting or evaluation),
or full success. -/
inductive TrainOutcome
  | failAfter0
  | failAfter1
  | failAfter2
  | failAfter3
  | success
deriving DecidableEq, Repr

/-- Number of in-place field assignments that have executed when the run
stops. -/
def TrainOutcome.stepsDone : TrainOutcome → Nat
  | failAfter0 => 0
  | failAfter1 => 1
  | failAfter2 => 2
  | failAfter3 => 3
  | success => 4

/-- Final state of the `SpamClassifier` object after a run of `train` with
the given outcome: the writes performed before the stopping point have
happened, the rest have not. -/
def trainResult {V C : Type} (c : SpamClassifierSt V C) (newVec : V)
    (newNB newLR : C) (o : TrainOutcome) : SpamClassifierSt V C :=
  ((trainMutations newVec newNB newLR).take o.stepsDone).foldl
    (fun s f => f s) c

/-- The global `training_status` dictionary of `app.py` (lines 21-29). -/
structure TrainingStatus where
  is_training : Bool
  is_trained : Bool
  progress : Nat
  current_step : String
  logs : List String
  error : Option String
  metrics : List (String × Rat)
deriving DecidableEq, Repr

/-- The initial value of `training_status` (`app.py`, lines 21-29), which is
also the value installed by the reset endpoint (lines 190-198). -/
def initialTrainingStatus : TrainingStatus :=
  { is_training := false, is_trained := false, progress := 0,
    current_step := "", logs := [], error := none, metrics := [] }

/-- The writes `train_model_thread` performs on `training_status` up to and
including `progress = 70` (`app.py`, lines 56-81), common to the success and
failure paths; `classifier.train()` runs right after the last of them.  Each
list element is one dictionary write, individually observable by concurrent
status readers (the status endpoint takes no lock). -/
def threadWritesStart : List (TrainingStatus → TrainingStatus) :=
  [fun s => { s with is_training := true },
   fun s => { s with progress := 0 },
   fun s => { s with current_step := "Starting training..." },
   fun s => { s with logs := [] },
   fun s => { s with error := none },
   fun s => { s with current_step := "Loading SMS dataset..." },
   fun s => { s with progress := 10 },
   fun s => { s with current_step := "Preprocessing text data..." },
   fun s => { s with progress := 30 },
   fun s => { s with current_step := "Extracting features using TF-IDF..." },
   fun s => { s with progress := 50 },
   fun s => { s with current_step := "Training Naive Bayes classifier..." },
   fun s => { s with progress := 70 }]

/-- The writes of `train_model_thread` when `classifier.train()` returns
normally (`app.py`, lines 87-99 and the `finally` block at line 109),
appended to the common start.  `nbAcc`, `lrAcc` are the two returned
accuracies and `capturedLogs` the captured log lines. -/
def threadWritesSuccess (nbAcc lrAcc : Rat) (capturedLogs : List String) :
    List (TrainingStatus → TrainingStatus) :=
  threadWritesStart ++
  [fun s => { s with current_step := "Training Logistic Regression..." },
   fun s => { s with progress := 90 },
   fun s => { s with is_trained := true },
   fun s => { s with progress := 100 },
   fun s => { s with current_step := "Training completed successfully!" },
   fun s => { s with metrics :=
      [("naive_bayes_accuracy", nbAcc), ("logistic_regression_accuracy", lrAcc)] },
   fun s => { s with logs := capturedLogs },
   fun s => { s with is_training := false }]

/-- The writes of `train_model_thread` when `classifier.train()` raises an
exception with message `msg` (`app.py`, lines 101-109): the `except` block
records the error and the logs, the `finally` block clears `is_training`.
`progress` and `is_trained` are not written after the failure point. -/
def threadWritesFailure (msg : String) (capturedLogs : List String)
    (tb : String) : List (TrainingStatus → TrainingStatus) :=
  threadWritesStart ++
  [fun s => { s with error := some msg },
   fun s => { s with current_step := "Error: " ++ msg },
   fun s => { s with logs := capturedLogs },
   fun s => { s with logs := s.logs ++ ["ERROR: " ++ tb] },
   fun s => { s with is_training := false }]

/-- All values of `training_status` observable while one run of
`train_model_thread` executes the given write sequence, starting from the
status the run began in: the start value followed by the value after each
write. -/
def threadTrace (init : TrainingStatus)
    (writes : List (TrainingStatus → TrainingStatus)) : List TrainingStatus :=
  List.scanl (fun s f => f s) init writes

/-- The shared state of the Flask application: the global `training_status`
record and the global `classifier` object (`app.py`, lines 20-30). -/
structure AppState where
  training_status : TrainingStatus
  classifier : SpamClassifierM

/-- The application state at process start. -/
def initialAppState : AppState :=
  { training_status := initialTrainingStatus,
    classifier := SpamClassifierSt.init }

/-- An HTTP response of the API: a 200 payload (message, prediction, or
batch results) or an error with its status code. -/
inductive ApiResponse
  | okMsg (message : String)
  | okPrediction (result : PredictionResult)
  | okBatch (results : List PredictionResult)
  | err (code : Nat) (error : String)
deriving DecidableEq

/-- HTTP status code of a response: every non-error payload is returned with
code 200. -/
def ApiResponse.httpCode : ApiResponse → Nat
  | okMsg _ => 200
  | okPrediction _ => 200
  | okBatch _ => 200
  | err code _ => code

namespace App

/-- Embedding of the `POST /api/train` handler `train` (`app.py`, lines
116-132).  The boolean records whether `thread.start()` ran, i.e. whether a
background training run was actually launched.  Note the source returns the
"Model already trained. Retraining..." response *before* the thread-creation
lines, so no thread is started in that branch. -/
def train (st : AppState) : ApiResponse × AppState × Bool :=
  if st.training_status.is_training then
    (.err 400 "Training already in progress", st, false)
  else if st.training_status.is_trained then
    (.okMsg "Model already trained. Retraining...", st, false)
  else
    (.okMsg "Training started", st, true)

/-- Embedding of the `GET /api/status` handler (`app.py`, lines 134-137):
a lock-free snapshot of `training_status`. -/
def status (st : AppState) : TrainingStatus :=
  st.training_status

/-- Embedding of the `POST /api/predict` handler (`app.py`, lines 139-157).
`message` is the request field (with the empty string as the default for a
missing key, here `none`).  A raised
exception from `classifier.predict` becomes a 500 response.  The handler
writes no shared state, so the returned state always equals the input
state. -/
def predict (st : AppState) (message : Option String) :
    ApiResponse × AppState :=
  if st.training_status.is_trained = false then
    (.err 400 "Model not trained yet. Please train the model first.", st)
  else
    let msg := message.getD ""
    if msg = "" then (.err 400 "No message provided", st)
    else
      match st.classifier.predict msg with
      | .ok r => (.okPrediction r, st)
      | .error e => (.err 500 e, st)

/-- The `for msg in messages` loop of the batch handler (`app.py`, lines
174-177): predictions are appended in input order; the first raised
exception aborts the whole loop. -/
def batchLoop (c : SpamClassifierM) :
    List String → Except String (List PredictionResult)
  | [] => .ok []
  | m :: ms =>
    match c.predict m with
    | .error e => .error e
    | .ok r =>
      match batchLoop c ms with
      | .error e => .error e
      | .ok rs => .ok (r :: rs)

/-- Embedding of the `POST /api/batch-predict` handler (`app.py`, lines
159-180).  `messages` is the request field (with the empty list as the
default for a missing key, here `none`); an empty or missing
list is rejected with 400 before any prediction runs. -/
def batch_predict (st : AppState) (messages : Option (List String)) :
    ApiResponse × AppState :=
  if st.training_status.is_trained = false then
    (.err 400 "Model not trained yet. Please train the model first.", st)
  else
    let msgs := messages.getD []
    if msgs = [] then (.err 400 "No messages provided", st)
    else
      match batchLoop st.classifier msgs with
      | .ok rs => (.okBatch rs, st)
      | .error e => (.err 500 e, st)

/-- Embedding of the `POST /api/reset` handler (`app.py`, lines 182-201):
rejected while training is in progress; otherwise `training_status` is
replaced by its initial literal and `classifier` by a fresh
`SpamClassifier()`. -/
def reset (st : AppState) : ApiResponse × AppState :=
  if st.training_status.is_training then
    (.err 400 "Cannot reset while training is in progress", st)
  else
    (.okMsg "Reset successful",
     { training_status := initialTrainingStatus,
       classifier := SpamClassifierSt.init })

end App

/-- A concrete fitted vectorizer for instantiating the theorems: encodes a
string by its length. -/
def sampleVectorizer : String → List Rat := fun s => [(s.length : Rat)]

/-- A concrete spam-leaning classifier. -/
def sampleNB : BinClassifier :=
  { predictLabel := fun _ => 1, predictProba := fun _ => (1/10, 9/10) }

/-- A concrete ham-leaning classifier. -/
def sampleLR : BinClassifier :=
  { predictLabel := fun _ => 0, predictProba := fun _ => (3/5, 2/5) }

/-- A fully populated trained classifier object. -/
def sampleTrainedClassifier : SpamClassifierM :=
  { vectorizer := some sampleVectorizer, nb_classifier := some sampleNB,
    lr_classifier := some sampleLR, is_trained := true }

/-- The `training_status` record as it stands after a completed training run. -/
def completedStatus : TrainingStatus :=
  { initialTrainingStatus with
      is_trained := true
      progress := 100
      current_step := "Training completed successfully!" }

/-- The `training_status` record as it stands in the middle of a training run. -/
def runningStatus : TrainingStatus :=
  { initialTrainingStatus with
      is_training := true
      progress := 50
      current_step := "Extracting features using TF-IDF..." }

/-- The application state in the Completed coordinator state. -/
def sampleTrainedAppState : AppState :=
  { training_status := completedStatus, classifier := sampleTrainedClassifier }

/-- The application state while a training run is active. -/
def runningAppState : AppState :=
  { training_status := runningStatus, classifier := SpamClassifierSt.init }

/-! ### Character-level facts about the normalization alphabet -/

theorem pyLower_fixes_lower : ∀ c ∈ asciiLowerChars, pyLower c = c := by decide

theorem pyLower_space : pyLower ' ' = ' ' := by decide

theorem upperFind_isSome :
    ∀ c ∈ asciiUpperChars,
      ((asciiUpperChars.zip asciiLowerChars).find? (fun p => p.1 == c)).isSome = true := by
  decide

theorem zipPair_snd_not_upper :
    ∀ p ∈ asciiUpperChars.zip asciiLowerChars,
      asciiUpperChars.contains p.2 = false := by decide

theorem lower_keepChar : ∀ c ∈ asciiLowerChars, keepChar c = true := by decide

theorem lower_not_space : ∀ c ∈ asciiLowerChars, isPySpace c = false := by decide

theorem space_keepChar : keepChar ' ' = true := by decide

theorem contains_lower_iff (c : Char) :
    asciiLowerChars.contains c = true ↔ c ∈ asciiLowerChars := by
  simp [List.contains, List.elem_iff]

theorem contains_upper_iff (c : Char) :
    asciiUpperChars.contains c = true ↔ c ∈ asciiUpperChars := by
  simp [List.contains, List.elem_iff]

/-- Lowercasing never produces an uppercase ASCII letter. -/
theorem pyLower_not_upper (c : Char) :
    asciiUpperChars.contains (pyLower c) = false := by
  rw [pyLower]
  split
  · next p hp => exact zipPair_snd_not_upper p (List.mem_of_find?_eq_some hp)
  · next hn =>
    by_contra hc
    have hmem : c ∈ asciiUpperChars := by
      rw [← contains_upper_iff]
      revert hc
      cases asciiUpperChars.contains c <;> simp
    have hsome := upperFind_isSome c hmem
    rw [hn] at hsome
    simp at hsome

/-! ### Facts about `splitWords` (Python `str.split()`) -/

theorem splitWords_nil : splitWords [] = [] := by
  rw [splitWords]

theorem splitWords_cons_space {c : Char} {cs : List Char}
    (h : isPySpace c = true) : splitWords (c :: cs) = splitWords cs := by
  rw [splitWords]
  simp [h]

theorem splitWords_cons_nonspace {c : Char} {cs : List Char}
    (h : isPySpace c = false) :
    splitWords (c :: cs) =
      (c :: cs.takeWhile (fun d => !isPySpace d))
        :: splitWords (cs.dropWhile (fun d => !isPySpace d)) := by
  rw [splitWords]
  simp [h]

/-- A nonempty all-non-whitespace string is a single word. -/
theorem splitWords_of_no_space {l : List Char} (hne : l ≠ [])
    (h : ∀ c ∈ l, isPySpace c = false) : splitWords l = [l] := by
  match l with
  | [] => exact absurd rfl hne
  | c :: cs =>
    rw [splitWords_cons_nonspace (h c (by simp))]
    have htake : cs.takeWhile (fun d => !isPySpace d) = cs := by
      rw [List.takeWhile_eq_self_iff]
      intro x hx
      simp [h x (List.mem_cons_of_mem _ hx)]
    have hdrop : cs.dropWhile (fun d => !isPySpace d) = [] := by
      rw [List.dropWhile_eq_nil_iff]
      intro x hx
      simp [h x (List.mem_cons_of_mem _ hx)]
    rw [htake, hdrop, splitWords_nil]

/-- Splitting a word followed by a space and a remainder peels off the word. -/
theorem splitWords_word_append {w rest : List Char} (hne : w ≠ [])
    (h : ∀ c ∈ w, isPySpace c = false) :
    splitWords (w ++ ' ' :: rest) = w :: splitWords rest := by
  match w with
  | [] => exact absurd rfl hne
  | c :: cs =>
    rw [List.cons_append, splitWords_cons_nonspace (h c (by simp))]
    have hcs : ∀ x ∈ cs, (fun d => !isPySpace d) x = true := by
      intro x hx
      simp [h x (List.mem_cons_of_mem _ hx)]
    rw [List.takeWhile_append_of_pos hcs, List.dropWhile_append_of_pos hcs]
    have hsp : (fun d => !isPySpace d) ' ' = false := by decide
    rw [List.takeWhile_cons_of_neg (by simp [hsp]), List.dropWhile_cons_of_neg (by simp [hsp])]
    rw [List.append_nil, splitWords_cons_space (by decide)]

/-- Every word produced by `splitWords` is nonempty. -/
theorem splitWords_ne_nil {l : List Char} : ∀ w ∈ splitWords l, w ≠ [] := by
  induction l using splitWords.induct with
  | case1 => rw [splitWords_nil]; intro w hw; cases hw
  | case2 c cs hc ih =>
    rw [splitWords_cons_space hc]
    exact ih
  | case3 c cs hc ih =>
    rw [splitWords_cons_nonspace (by revert hc; cases isPySpace c <;> simp)]
    intro w hw
    rcases List.mem_cons.mp hw with rfl | hw
    · simp
    · exact ih w hw

/-- Every character of every word produced by `splitWords` is a character of
the input. -/
theorem splitWords_chars_mem {l : List Char} :
    ∀ w ∈ splitWords l, ∀ c ∈ w, c ∈ l := by
  induction l using splitWords.induct with
  | case1 => rw [splitWords_nil]; intro w hw; cases hw
  | case2 c cs hc ih =>
    rw [splitWords_cons_space hc]
    intro w hw x hx
    exact List.mem_cons_of_mem _ (ih w hw x hx)
  | case3 c cs hc ih =>
    rw [splitWords_cons_nonspace (by revert hc; cases isPySpace c <;> simp)]
    intro w hw x hx
    rcases List.mem_cons.mp hw with rfl | hw
    · rcases List.mem_cons.mp hx with rfl | hx
      · simp
      · exact List.mem_cons_of_mem _ (List.takeWhile_subset _ hx)
    · have := ih w hw x hx
      exact List.mem_cons_of_mem _ ((List.dropWhile_sublist _).subset this)

/-- No character of a word produced by `splitWords` is whitespace. -/
theorem splitWords_chars_nonspace {l : List Char} :
    ∀ w ∈ splitWords l, ∀ c ∈ w, isPySpace c = false := by
  induction l using splitWords.induct with
  | case1 => rw [splitWords_nil]; intro w hw; cases hw
  | case2 c cs hc ih =>
    rw [splitWords_cons_space hc]
    exact ih
  | case3 c cs hc ih =>
    have hc' : isPySpace c = false := by revert hc; cases isPySpace c <;> simp
    rw [splitWords_cons_nonspace hc']
    intro w hw x hx
    rcases List.mem_cons.mp hw with rfl | hw
    · rcases List.mem_cons.mp hx with rfl | hx
      · exact hc'
      · have := List.mem_takeWhile_imp hx
        revert this
        cases isPySpace x <;> simp
    · exact ih w hw x hx

/-! ### Facts about `joinSpace` (the space-join) -/

theorem joinSpace_nil : joinSpace [] = [] := by
  simp [joinSpace, List.intercalate]

theorem joinSpace_single (w : List Char) : joinSpace [w] = w := by
  simp [joinSpace, List.intercalate]

theorem joinSpace_cons_cons (w v : List Char) (ws : List (List Char)) :
    joinSpace (w :: v :: ws) = w ++ ' ' :: joinSpace (v :: ws) := by
  simp [joinSpace, List.intercalate]

theorem map_eq_self_of {α : Type} {f : α → α} {l : List α}
    (h : ∀ a ∈ l, f a = a) : l.map f = l := by
  induction l with
  | nil => rfl
  | cons a t ih =>
    simp only [List.map_cons, h a (by simp),
      ih (fun x hx => h x (List.mem_cons_of_mem _ hx))]

theorem joinSpace_chars {ws : List (List Char)} :
    ∀ c ∈ joinSpace ws, (∃ w ∈ ws, c ∈ w) ∨ c = ' ' := by
  induction ws with
  | nil => rw [joinSpace_nil]; intro c hc; cases hc
  | cons w ws ih =>
    cases ws with
    | nil =>
      rw [joinSpace_single]
      intro c hc
      exact .inl ⟨w, by simp, hc⟩
    | cons v vs =>
      rw [joinSpace_cons_cons]
      intro c hc
      rcases List.mem_append.mp hc with h | h
      · exact .inl ⟨w, by simp, h⟩
      · rcases List.mem_cons.mp h with rfl | h
        · exact .inr rfl
        · rcases ih c h with ⟨u, hu, hcu⟩ | rfl
          · exact .inl ⟨u, List.mem_cons_of_mem _ hu, hcu⟩
          · exact .inr rfl

theorem joinSpace_ne_nil {ws : List (List Char)} (hws : ws ≠ [])
    (hne : ∀ w ∈ ws, w ≠ []) : joinSpace ws ≠ [] := by
  cases ws with
  | nil => exact absurd rfl hws
  | cons w ws =>
    cases ws with
    | nil => rw [joinSpace_single]; exact hne w (by simp)
    | cons v vs =>
      rw [joinSpace_cons_cons]
      simp

theorem chain'_word {w : List Char} (h : ∀ c ∈ w, c ≠ ' ') :
    List.Chain' (fun a b => ¬(a = ' ' ∧ b = ' ')) w := by
  induction w with
  | nil => exact List.chain'_nil
  | cons a w ih =>
    cases w with
    | nil => exact List.chain'_singleton a
    | cons b t =>
      rw [List.chain'_cons]
      exact ⟨fun hab => h a (by simp) hab.1,
        ih (fun c hc => h c (List.mem_cons_of_mem _ hc))⟩

/-- Joining nonempty space-free words with single spaces yields a string with
no adjacent spaces and no space at either end. -/
theorem joinSpace_shape {ws : List (List Char)}
    (hne : ∀ w ∈ ws, w ≠ [])
    (hns : ∀ w ∈ ws, ∀ c ∈ w, c ≠ ' ') :
    List.Chain' (fun a b => ¬(a = ' ' ∧ b = ' ')) (joinSpace ws) ∧
    (joinSpace ws).head? ≠ some ' ' ∧
    (joinSpace ws).getLast? ≠ some ' ' := by
  induction ws with
  | nil => rw [joinSpace_nil]; exact ⟨List.chain'_nil, by simp, by simp⟩
  | cons w ws ih =>
    cases ws with
    | nil =>
      rw [joinSpace_single]
      refine ⟨chain'_word (hns w (by simp)), ?_, ?_⟩
      · cases w with
        | nil => simp
        | cons a t =>
          have := hns (a :: t) (by simp) a (by simp)
          simpa using this
      · have hw : w ≠ [] := hne w (by simp)
        rw [List.getLast?_eq_getLast w hw]
        have := hns w (by simp) _ (List.getLast_mem hw)
        simpa using this
    | cons v vs =>
      obtain ⟨ihc, ihh, ihl⟩ :=
        ih (fun u hu => hne u (List.mem_cons_of_mem _ hu))
           (fun u hu => hns u (List.mem_cons_of_mem _ hu))
      rw [joinSpace_cons_cons]
      have hwne : w ≠ [] := hne w (by simp)
      have hwns : ∀ c ∈ w, c ≠ ' ' := hns w (by simp)
      have hjne : joinSpace (v :: vs) ≠ [] :=
        joinSpace_ne_nil (by simp)
          (fun u hu => hne u (List.mem_cons_of_mem _ hu))
      refine ⟨?_, ?_, ?_⟩
      · rw [List.chain'_append]
        refine ⟨chain'_word hwns, ?_, ?_⟩
        · refine List.chain'_cons'.mpr ⟨?_, ihc⟩
          intro y hy hcontra
          apply ihh
          rw [hy, hcontra.2]
        · intro x hx y _
          intro hcontra
          rw [List.getLast?_eq_getLast w hwne] at hx
          have hxe : w.getLast hwne = x := by simpa using hx
          exact hwns x (hxe ▸ List.getLast_mem hwne) hcontra.1
      · rw [List.head?_append]
        cases w with
        | nil => exact absurd rfl hwne
        | cons a t =>
          have := hwns a (by simp)
          simpa using this
      · rw [List.getLast?_append]
        cases hj : joinSpace (v :: vs) with
        | nil => exact absurd hj hjne
        | cons b t =>
          rw [hj] at ihl
          simpa using ihl

/-! ### Structure of the output of `preprocess_text` -/

/-- Rebuilding from joined words: `splitWords` inverts `joinSpace` on lists
of nonempty space-free words. -/
theorem splitWords_joinSpace {ws : List (List Char)}
    (hne : ∀ w ∈ ws, w ≠ [])
    (hsp : ∀ w ∈ ws, ∀ c ∈ w, isPySpace c = false) :
    splitWords (joinSpace ws) = ws := by
  induction ws with
  | nil => rw [joinSpace_nil, splitWords_nil]
  | cons w ws ih =>
    cases ws with
    | nil =>
      rw [joinSpace_single]
      exact splitWords_of_no_space (hne w (by simp)) (hsp w (by simp))
    | cons v vs =>
      rw [joinSpace_cons_cons,
        splitWords_word_append (hne w (by simp)) (hsp w (by simp))]
      rw [ih (fun u hu => hne u (List.mem_cons_of_mem _ hu))
          (fun u hu => hsp u (List.mem_cons_of_mem _ hu))]

/-- The function `preprocess_text` returns exactly its stopword-filtered words joined by
single spaces: the inner split-and-rejoin step does not change the
word list seen by the tokenizer. -/
theorem preprocess_text_eq (s : String) :
    preprocess_text s = String.mk (joinSpace (normWords s)) := by
  unfold preprocess_text normWords
  dsimp only
  rw [splitWords_joinSpace
    (splitWords_ne_nil)
    (splitWords_chars_nonspace)]

theorem normWords_ne_nil {s : String} : ∀ w ∈ normWords s, w ≠ [] :=
  fun w hw => splitWords_ne_nil w (List.mem_of_mem_filter hw)

/-- Every character of every token of `preprocess_text` is a lowercase ASCII
letter. -/
theorem normWords_lower {s : String} :
    ∀ w ∈ normWords s, ∀ c ∈ w, asciiLowerChars.contains c = true := by
  intro w hw c hc
  have hw' := List.mem_of_mem_filter hw
  have hcl : c ∈ (s.data.map pyLower).filter keepChar :=
    splitWords_chars_mem w hw' c hc
  have hns : isPySpace c = false := splitWords_chars_nonspace w hw' c hc
  have hk : keepChar c = true := (List.mem_filter.mp hcl).2
  have hmem := (List.mem_filter.mp hcl).1
  obtain ⟨d, _, rfl⟩ := List.mem_map.mp hmem
  have hup := pyLower_not_upper d
  have hup' : pyLower d ∉ asciiUpperChars := by
    intro hm
    rw [(contains_upper_iff _).mpr hm] at hup
    exact Bool.noConfusion hup
  revert hk
  simp [keepChar, isAsciiAlpha, hns, hup', contains_lower_iff, contains_upper_iff]

theorem normWords_not_stopword {s : String} :
    ∀ w ∈ normWords s, stop_words.contains (String.mk w) = false := by
  intro w hw
  have h := (List.mem_filter.mp hw).2
  revert h
  cases stop_words.contains (String.mk w) <;> simp

theorem normWords_nonspace {s : String} :
    ∀ w ∈ normWords s, ∀ c ∈ w, isPySpace c = false :=
  fun w hw c hc =>
    lower_not_space c ((contains_lower_iff c).mp (normWords_lower w hw c hc))

theorem normWords_ne_space {s : String} :
    ∀ w ∈ normWords s, ∀ c ∈ w, c ≠ ' ' := by
  intro w hw c hc
  have h := (contains_lower_iff c).mp (normWords_lower w hw c hc)
  have hall : ∀ d ∈ asciiLowerChars, d ≠ ' ' := by decide
  exact hall c h

theorem data_mk (l : List Char) : (String.mk l).data = l := rfl

/-- A string that is already a join of nonempty lowercase non-stopword words
is a fixed point of `preprocess_text`. -/
theorem preprocess_text_fixed {ws : List (List Char)}
    (h1 : ∀ w ∈ ws, w ≠ [])
    (h2 : ∀ w ∈ ws, ∀ c ∈ w, asciiLowerChars.contains c = true)
    (h3 : ∀ w ∈ ws, stop_words.contains (String.mk w) = false) :
    preprocess_text (String.mk (joinSpace ws)) = String.mk (joinSpace ws) := by
  have hsp : ∀ w ∈ ws, ∀ c ∈ w, isPySpace c = false := fun w hw c hc =>
    lower_not_space c ((contains_lower_iff c).mp (h2 w hw c hc))
  have hchars : ∀ c ∈ joinSpace ws,
      asciiLowerChars.contains c = true ∨ c = ' ' := by
    intro c hc
    rcases joinSpace_chars c hc with ⟨w, hw, hcw⟩ | rfl
    · exact .inl (h2 w hw c hcw)
    · exact .inr rfl
  have hmap : (joinSpace ws).map pyLower = joinSpace ws := by
    apply map_eq_self_of
    intro c hc
    rcases hchars c hc with hl | rfl
    · exact pyLower_fixes_lower c ((contains_lower_iff c).mp hl)
    · exact pyLower_space
  have hfil : (joinSpace ws).filter keepChar = joinSpace ws := by
    rw [List.filter_eq_self]
    intro c hc
    rcases hchars c hc with hl | rfl
    · exact lower_keepChar c ((contains_lower_iff c).mp hl)
    · exact space_keepChar
  have hsplit : splitWords (joinSpace ws) = ws := splitWords_joinSpace h1 hsp
  have hfil2 : ws.filter (fun w => !stop_words.contains (String.mk w)) = ws := by
    rw [List.filter_eq_self]
    intro w hw
    rw [h3 w hw]
    rfl
  unfold preprocess_text
  dsimp only
  rw [hmap, hfil, hsplit, hsplit, hfil2]

/-- C7: text normalization is deterministic (a pure function: equal inputs
give equal outputs) and idempotent:
`preprocess_text (preprocess_text x) = preprocess_text x` for every
string `x`. -/
theorem C7_preprocess_text_deterministic_idempotent (x y : String)
    (h : x = y) :
    preprocess_text (preprocess_text x) = preprocess_text x ∧
    preprocess_text x = preprocess_text y := by
  refine ⟨?_, h ▸ rfl⟩
  rw [preprocess_text_eq x]
  exact preprocess_text_fixed normWords_ne_nil normWords_lower
    normWords_not_stopword

theorem C7_witness :
    preprocess_text (preprocess_text "Congratulations, you WON a $1000 prize!!") =
      preprocess_text "Congratulations, you WON a $1000 prize!!" ∧
    preprocess_text "Congratulations, you WON a $1000 prize!!" =
      preprocess_text "Congratulations, you WON a $1000 prize!!" :=
  C7_preprocess_text_deterministic_idempotent
    "Congratulations, you WON a $1000 prize!!"
    "Congratulations, you WON a $1000 prize!!" rfl

/-- C8: for every input, the output of `preprocess_text` consists only of
lowercase ASCII letters and spaces, with no two adjacent spaces, no leading
or trailing space, no stopword among its tokens; the empty string maps to
the empty string (and the function is total, so no input can raise). -/
theorem C8_preprocess_text_output_shape (s : String) :
    (∀ c ∈ (preprocess_text s).data,
        asciiLowerChars.contains c = true ∨ c = ' ') ∧
    List.Chain' (fun a b => ¬(a = ' ' ∧ b = ' ')) (preprocess_text s).data ∧
    (preprocess_text s).data.head? ≠ some ' ' ∧
    (preprocess_text s).data.getLast? ≠ some ' ' ∧
    (∀ w ∈ splitWords (preprocess_text s).data,
        stop_words.contains (String.mk w) = false) ∧
    preprocess_text "" = "" := by
  have hshape := @joinSpace_shape (normWords s) normWords_ne_nil
    normWords_ne_space
  have hempty : preprocess_text "" = "" := by
    rw [preprocess_text_eq ""]
    have hnw : normWords "" = [] := by
      unfold normWords
      have hd : "".data = [] := rfl
      rw [hd]
      simp [splitWords_nil]
    rw [hnw, joinSpace_nil]
  refine ⟨?_, ?_, ?_, ?_, ?_, hempty⟩
  · rw [preprocess_text_eq s, data_mk]
    intro c hc
    rcases joinSpace_chars c hc with ⟨w, hw, hcw⟩ | rfl
    · exact .inl (normWords_lower w hw c hcw)
    · exact .inr rfl
  · rw [preprocess_text_eq s, data_mk]
    exact hshape.1
  · rw [preprocess_text_eq s, data_mk]
    exact hshape.2.1
  · rw [preprocess_text_eq s, data_mk]
    exact hshape.2.2
  · rw [preprocess_text_eq s, data_mk,
      splitWords_joinSpace normWords_ne_nil normWords_nonspace]
    exact normWords_not_stopword

theorem C8_witness :
    (∀ c ∈ (preprocess_text "FREE entry!! Win 100 dollars NOW...").data,
        asciiLowerChars.contains c = true ∨ c = ' ') ∧
    List.Chain' (fun a b => ¬(a = ' ' ∧ b = ' '))
      (preprocess_text "FREE entry!! Win 100 dollars NOW...").data ∧
    (preprocess_text "FREE entry!! Win 100 dollars NOW...").data.head? ≠
      some ' ' ∧
    (preprocess_text "FREE entry!! Win 100 dollars NOW...").data.getLast? ≠
      some ' ' ∧
    (∀ w ∈ splitWords (preprocess_text "FREE entry!! Win 100 dollars NOW...").data,
        stop_words.contains (String.mk w) = false) ∧
    preprocess_text "" = "" :=
  C8_preprocess_text_output_shape "FREE entry!! Win 100 dollars NOW..."

/-! ### The endpoint and training-thread claims -/

/-- C1: in the Completed state (`is_trained` true, `is_training` false) the
train endpoint answers 200 with the retrain acknowledgement but does NOT
start a training run: the handler returns before the thread-creation lines,
so the spawned flag is false and the state is unchanged.  This contradicts
the sentence that a new training run is actually started (the response text
itself promises "Retraining..."). -/
theorem C1_retrain_acknowledged_but_not_started :
    App.train sampleTrainedAppState =
      (.okMsg "Model already trained. Retraining...",
       sampleTrainedAppState, false) := rfl

/-- C3: two train requests processed from the idle state before the spawned
background thread performs its first write are BOTH accepted, and BOTH
spawn a training thread: the handler reads `is_training` without holding the
lock and never sets it (only the thread sets it later), so there is no
atomic check-and-set and two simultaneous training runs arise.  The third
conjunct shows the rejection only happens once a running thread has already
set `is_training`. -/
theorem C3_double_start_both_accepted :
    App.train initialAppState =
      (.okMsg "Training started", initialAppState, true) ∧
    App.train (App.train initialAppState).2.1 =
      (.okMsg "Training started", initialAppState, true) ∧
    App.train { initialAppState with
        training_status := { initialTrainingStatus with is_training := true } } =
      (.err 400 "Training already in progress",
       { initialAppState with
          training_status := { initialTrainingStatus with is_training := true } },
       false) :=
  ⟨rfl, rfl, rfl⟩

/-- C4: before any successful training (`is_trained` false at the object and
at the coordinator), predicting fails with the "not trained" error — an
exception from `SpamClassifier.predict`, a 400 from the API — for every
message, and the shared state is returned unchanged. -/
theorem C4_predict_before_training_fails (st : AppState) (req : Option String)
    (m : String)
    (hc : st.classifier.is_trained = false)
    (ht : st.training_status.is_trained = false) :
    st.classifier.predict m = .error "Model must be trained first" ∧
    App.predict st req =
      (.err 400 "Model not trained yet. Please train the model first.", st) := by
  constructor
  · unfold SpamClassifierSt.predict
    rw [hc]
    rfl
  · unfold App.predict
    rw [ht]
    rfl

theorem C4_witness :
    (SpamClassifierSt.init : SpamClassifierM).predict "win money now" =
      .error "Model must be trained first" ∧
    App.predict initialAppState (some "win money now") =
      (.err 400 "Model not trained yet. Please train the model first.",
       initialAppState) :=
  C4_predict_before_training_fails initialAppState (some "win money now")
    "win money now" rfl rfl

/-- The batch loop returns exactly the per-message predictions when every
prediction succeeds. -/
theorem batchLoop_ok (c : SpamClassifierM) (f : String → PredictionResult)
    (h : ∀ m, c.predict m = .ok (f m)) :
    ∀ msgs : List String, App.batchLoop c msgs = .ok (msgs.map f) := by
  intro msgs
  induction msgs with
  | nil => rfl
  | cons m ms ih =>
    unfold App.batchLoop
    rw [h m, ih]
    rfl

/-- C5: with a trained installed model, batch prediction applies `predict`
to each message independently and returns the results in input order
(result list = map of predict over the input, so result i corresponds to
message i and the length is preserved), while an empty or missing message
list is rejected with a 400 validation error rather than an empty result. -/
theorem C5_batch_predict_order_and_empty_rejection
    (st : AppState) (v : String → List Rat) (nb lr : BinClassifier)
    (msgs : List String)
    (ht : st.training_status.is_trained = true)
    (hc : st.classifier.is_trained = true)
    (hv : st.classifier.vectorizer = some v)
    (hnb : st.classifier.nb_classifier = some nb)
    (hlr : st.classifier.lr_classifier = some lr)
    (hne : msgs ≠ []) :
    App.batch_predict st none = (.err 400 "No messages provided", st) ∧
    App.batch_predict st (some []) = (.err 400 "No messages provided", st) ∧
    (∀ m, st.classifier.predict m = .ok (classify_sms_real_time m v nb lr)) ∧
    App.batch_predict st (some msgs) =
      (.okBatch (msgs.map (fun m => classify_sms_real_time m v nb lr)), st) ∧
    (msgs.map (fun m => classify_sms_real_time m v nb lr)).length =
      msgs.length := by
  have hpred : ∀ m, st.classifier.predict m =
      .ok (classify_sms_real_time m v nb lr) := by
    intro m
    unfold SpamClassifierSt.predict
    rw [hc, hv, hnb, hlr]
    rfl
  have hloop := batchLoop_ok st.classifier _ hpred msgs
  refine ⟨?_, ?_, hpred, ?_, by simp⟩
  · simp [App.batch_predict, ht]
  · simp [App.batch_predict, ht]
  · simp [App.batch_predict, ht, hne, hloop]

theorem C5_witness :
    App.batch_predict sampleTrainedAppState none =
      (.err 400 "No messages provided", sampleTrainedAppState) ∧
    App.batch_predict sampleTrainedAppState (some []) =
      (.err 400 "No messages provided", sampleTrainedAppState) ∧
    (∀ m, sampleTrainedAppState.classifier.predict m =
      .ok (classify_sms_real_time m sampleVectorizer sampleNB sampleLR)) ∧
    App.batch_predict sampleTrainedAppState
        (some ["win money now", "see you at lunch"]) =
      (.okBatch ((["win money now", "see you at lunch"] : List String).map
        (fun m => classify_sms_real_time m sampleVectorizer sampleNB sampleLR)),
       sampleTrainedAppState) ∧
    ((["win money now", "see you at lunch"] : List String).map
        (fun m => classify_sms_real_time m sampleVectorizer sampleNB sampleLR)).length =
      (["win money now", "see you at lunch"] : List String).length :=
  C5_batch_predict_order_and_empty_rejection sampleTrainedAppState
    sampleVectorizer sampleNB sampleLR ["win money now", "see you at lunch"]
    rfl rfl rfl rfl rfl (by simp)

/-- C6: reset is rejected with 400 and changes nothing while a run is
active; otherwise it answers 200, restores every `TrainingStatus` field to
its initial value (in particular `is_trained = false` and `progress = 0`),
installs a fresh untrained classifier, and a subsequent predict fails with
the "not trained" error at both the object and the API level. -/
theorem C6_reset_behaviour (st : AppState) :
    (st.training_status.is_training = true →
      App.reset st =
        (.err 400 "Cannot reset while training is in progress", st)) ∧
    (st.training_status.is_training = false →
      App.reset st =
        (.okMsg "Reset successful",
         { training_status := initialTrainingStatus,
           classifier := SpamClassifierSt.init }) ∧
      (App.reset st).2.training_status = initialTrainingStatus ∧
      (App.reset st).2.training_status.is_trained = false ∧
      (App.reset st).2.training_status.progress = 0 ∧
      (∀ m, (App.reset st).2.classifier.predict m =
        .error "Model must be trained first") ∧
      (∀ req, App.predict (App.reset st).2 req =
        (.err 400 "Model not trained yet. Please train the model first.",
         (App.reset st).2))) := by
  constructor
  · intro h
    unfold App.reset
    rw [h]
    rfl
  · intro h
    have hr : App.reset st =
        (.okMsg "Reset successful",
         { training_status := initialTrainingStatus,
           classifier := SpamClassifierSt.init }) := by
      unfold App.reset
      rw [h]
      rfl
    rw [hr]
    exact ⟨rfl, rfl, rfl, rfl, fun m => rfl, fun req => rfl⟩

theorem C6_witness :
    App.reset runningAppState =
      (.err 400 "Cannot reset while training is in progress",
       runningAppState) ∧
    (App.reset sampleTrainedAppState).2.training_status =
      initialTrainingStatus ∧
    (∀ req, App.predict (App.reset sampleTrainedAppState).2 req =
      (.err 400 "Model not trained yet. Please train the model first.",
       (App.reset sampleTrainedAppState).2)) :=
  ⟨(C6_reset_behaviour runningAppState).1 rfl,
   ((C6_reset_behaviour sampleTrainedAppState).2 rfl).2.1,
   ((C6_reset_behaviour sampleTrainedAppState).2 rfl).2.2.2.2.2⟩

/-- C2 counterexample: with a fully trained model (all components version 0)
installed, a retraining run that installs version 1 passes through the
observable state in which the new vectorizer is paired with the old
classifiers while `is_trained` is still true — a predict running at that
moment uses a mixed pair — and a run that fails right after the vectorizer
assignment ends with the previous model modified, not left exactly as it
was before the run started. -/
theorem C2_counterexample :
    (trainStates (⟨some 0, some 0, some 0, true⟩ : SpamClassifierSt Nat Nat)
        1 1 1)[1]? =
      some ⟨some 1, some 0, some 0, true⟩ ∧
    trainResult (⟨some 0, some 0, some 0, true⟩ : SpamClassifierSt Nat Nat)
        1 1 1 .failAfter1 =
      ⟨some 1, some 0, some 0, true⟩ ∧
    (⟨some 1, some 0, some 0, true⟩ : SpamClassifierSt Nat Nat) ≠
      ⟨some 0, some 0, some 0, true⟩ :=
  ⟨rfl, rfl, by decide⟩

/-- C2 amended: model installation is not a single atomic replacement — the
three model fields are reassigned in place one at a time, so mixed pairs are
observable mid-run and failing runs can leave already-reassigned fields
behind (see the counterexample) — but: every failing run leaves
`is_trained` exactly as it was; a run that fails before the vectorizer
assignment (during data loading or preprocessing) leaves the whole previous
model untouched; and the final state of a fully successful run carries all
three components of the new run with `is_trained` set. -/
theorem C2_train_inplace_characterization (V C : Type)
    (c : SpamClassifierSt V C) (nv : V) (nn : C) (nl : C) (o : TrainOutcome)
    (hfail : o ≠ .success) :
    (trainResult c nv nn nl o).is_trained = c.is_trained ∧
    trainResult c nv nn nl .failAfter0 = c ∧
    trainResult c nv nn nl .success =
      { vectorizer := some nv, nb_classifier := some nn,
        lr_classifier := some nl, is_trained := true } := by
  refine ⟨?_, rfl, rfl⟩
  cases o with
  | success => exact absurd rfl hfail
  | failAfter0 => rfl
  | failAfter1 => rfl
  | failAfter2 => rfl
  | failAfter3 => rfl

theorem C2_witness :
    (trainResult (⟨some 0, some 0, some 0, true⟩ : SpamClassifierSt Nat Nat)
        1 1 1 .failAfter2).is_trained =
      (⟨some 0, some 0, some 0, true⟩ : SpamClassifierSt Nat Nat).is_trained ∧
    trainResult (⟨some 0, some 0, some 0, true⟩ : SpamClassifierSt Nat Nat)
        1 1 1 .failAfter0 = ⟨some 0, some 0, some 0, true⟩ ∧
    trainResult (⟨some 0, some 0, some 0, true⟩ : SpamClassifierSt Nat Nat)
        1 1 1 .success = ⟨some 1, some 1, some 1, true⟩ :=
  C2_train_inplace_characterization Nat Nat ⟨some 0, some 0, some 0, true⟩
    1 1 1 .failAfter2 (by decide)

/-- C9: within one run of the training thread, from the write that resets
`progress` the progress values are non-decreasing across every status
update; the run resets progress to 0 at its start (the head of the progress
updates of the run is 0, for the success and the failure path alike); and
100 appears among the progress values of the run exactly on the success path — a
failed run never writes 100 (it tops out at 70). -/
theorem C9_progress_monotone (init : TrainingStatus) (nbAcc lrAcc : Rat)
    (logsS logsF : List String) (msg tb : String) :
    List.Chain' (· ≤ ·)
      (((threadTrace init (threadWritesSuccess nbAcc lrAcc logsS)).map
        TrainingStatus.progress).drop 2) ∧
    (((threadTrace init (threadWritesSuccess nbAcc lrAcc logsS)).map
        TrainingStatus.progress).drop 2).head? = some 0 ∧
    100 ∈ ((threadTrace init (threadWritesSuccess nbAcc lrAcc logsS)).map
        TrainingStatus.progress).drop 2 ∧
    List.Chain' (· ≤ ·)
      (((threadTrace init (threadWritesFailure msg logsF tb)).map
        TrainingStatus.progress).drop 2) ∧
    (((threadTrace init (threadWritesFailure msg logsF tb)).map
        TrainingStatus.progress).drop 2).head? = some 0 ∧
    100 ∉ ((threadTrace init (threadWritesFailure msg logsF tb)).map
        TrainingStatus.progress).drop 2 := by
  have hS : ((threadTrace init (threadWritesSuccess nbAcc lrAcc logsS)).map
      TrainingStatus.progress).drop 2 =
      [0, 0, 0, 0, 0, 10, 10, 30, 30, 50, 50, 70, 70, 90, 90,
       100, 100, 100, 100, 100] := rfl
  have hF : ((threadTrace init (threadWritesFailure msg logsF tb)).map
      TrainingStatus.progress).drop 2 =
      [0, 0, 0, 0, 0, 10, 10, 30, 30, 50, 50, 70, 70, 70, 70, 70, 70] := rfl
  rw [hS, hF]
  refine ⟨?_, by decide, by decide, ?_, by decide, by decide⟩
  · norm_num [List.chain'_cons, List.chain'_singleton]
  · norm_num [List.chain'_cons, List.chain'_singleton]

theorem C9_witness :
    List.Chain' (· ≤ ·)
      (((threadTrace initialTrainingStatus
          (threadWritesSuccess (49/50) (24/25) [])).map
        TrainingStatus.progress).drop 2) ∧
    (((threadTrace initialTrainingStatus
          (threadWritesSuccess (49/50) (24/25) [])).map
        TrainingStatus.progress).drop 2).head? = some 0 ∧
    100 ∈ ((threadTrace initialTrainingStatus
          (threadWritesSuccess (49/50) (24/25) [])).map
        TrainingStatus.progress).drop 2 ∧
    List.Chain' (· ≤ ·)
      (((threadTrace initialTrainingStatus
          (threadWritesFailure "dataset missing" [] "traceback")).map
        TrainingStatus.progress).drop 2) ∧
    (((threadTrace initialTrainingStatus
          (threadWritesFailure "dataset missing" [] "traceback")).map
        TrainingStatus.progress).drop 2).head? = some 0 ∧
    100 ∉ ((threadTrace initialTrainingStatus
          (threadWritesFailure "dataset missing" [] "traceback")).map
        TrainingStatus.progress).drop 2 :=
  C9_progress_monotone initialTrainingStatus (49/50) (24/25) [] []
    "dataset missing" "traceback"

/-- C10: a prediction result returns the raw input message unchanged (not
the normalized text), each of the two labels is exactly one of the strings
"Spam" and "Not Spam", and each confidence equals the maximum of the
two class probabilities of the corresponding classifier on the encoded message. -/
theorem C10_prediction_result_fields (message : String)
    (vectorizer : String → List Rat) (nb lr : BinClassifier) :
    (classify_sms_real_time message vectorizer nb lr).message = message ∧
    ((classify_sms_real_time message vectorizer nb lr).naive_bayes_result =
        "Spam" ∨
      (classify_sms_real_time message vectorizer nb lr).naive_bayes_result =
        "Not Spam") ∧
    ((classify_sms_real_time message vectorizer nb lr).logistic_regression_result =
        "Spam" ∨
      (classify_sms_real_time message vectorizer nb lr).logistic_regression_result =
        "Not Spam") ∧
    (classify_sms_real_time message vectorizer nb lr).naive_bayes_confidence =
      max (nb.predictProba (vectorizer (preprocess_text message))).1
          (nb.predictProba (vectorizer (preprocess_text message))).2 ∧
    (classify_sms_real_time message vectorizer nb lr).logistic_regression_confidence =
      max (lr.predictProba (vectorizer (preprocess_text message))).1
          (lr.predictProba (vectorizer (preprocess_text message))).2 := by
  unfold classify_sms_real_time
  dsimp only
  refine ⟨rfl, ?_, ?_, rfl, rfl⟩
  · by_cases h : nb.predictLabel (vectorizer (preprocess_text message)) = 1 <;>
      simp [h]
  · by_cases h : lr.predictLabel (vectorizer (preprocess_text message)) = 1 <;>
      simp [h]

end SpamSMS
